import Mathlib

/-!
Verification of the bridge/relay protocol and connection-lifecycle component of
the OpenCode Firefox extension repository.

Part I embeds the Python native-messaging host (`native-host/opencode_bridge.py`):
the framed message codec (`read_message` / `send_message`) and the relay main loop.
Python byte strings are modelled as `List Nat`, Python exceptions as `Except PyErr`,
and the external collaborators (`json.loads`, `json.dumps`, Python truthiness of a
parsed document, the HTTP call to the backing server) as function parameters.

Part II embeds the extension background script (`extension/background.js`): the
connection-manager state (native port, reconnect counter, pending-request map,
request-id counter) and its event handlers, as an explicit state-passing step
function over an event type, with observable actions collected as `Effect`s.
-/

/-!
Part II: the connection manager of `extension/background.js`.

Module-level mutable state (lines 20-27) becomes `BgState`; the handlers become
pure functions from state to state plus a list of observable `Effect`s.
Environment-determined outcomes (whether `browser.runtime.connectNative` throws,
whether `nativePort.postMessage` throws, the active tab query result,
`Date.now()`, `navigator.userAgent`, the sender of a runtime message) are passed
in as arguments. JS `Map` keyed by the numeric request id is modelled as an
insertion-ordered association list.
-/

/-- Runtime errors a `read_message` call can raise in Python:
`typeError` for passing a non-integer (here: a tuple) to `buffer.read`,
`structError` for `struct.unpack` on a buffer of the wrong size,
`jsonError` for `json.loads` / UTF-8 decoding failures. -/
inductive PyErr
  | typeError
  | structError
  | jsonError
deriving Repr, DecidableEq

/-- Embeds `struct.pack('=I', n)`: the 4 bytes of `n`, least significant first
(`=I` is standard size 4, native byte order; little-endian on every platform the
extension supports). -/
def structPackI (n : Nat) : List Nat :=
  [n % 256, n / 256 % 256, n / 65536 % 256, n / 16777216 % 256]

/-- Embeds `struct.unpack('=I', b)`: requires exactly 4 bytes, and returns a
1-tuple (modelled as a one-element list) holding the little-endian value.
On any other buffer size it raises `struct.error`. -/
def structUnpackI (b : List Nat) : Except PyErr (List Nat) :=
  match b with
  | [b0, b1, b2, b3] => Except.ok [b0 + b1 * 256 + b2 * 65536 + b3 * 16777216]
  | _ => Except.error PyErr.structError

/-- Argument passed to `sys.stdin.buffer.read`. The source passes the raw result
of `struct.unpack` (a tuple) where an integer is expected, so the dynamic type of
the argument must be part of the model. -/
inductive PyReadArg
  | int (n : Nat)
  | tuple (t : List Nat)
deriving Repr, DecidableEq

/-- Embeds `sys.stdin.buffer.read(a)` on a stream holding `stdin`: with an
integer argument it returns up to `n` bytes and the remaining stream; with a
tuple argument Python raises `TypeError` ("argument should be integer or None").
At end of stream it returns `b''` (the empty list). -/
def bufferRead (stdin : List Nat) (a : PyReadArg) :
    Except PyErr (List Nat × List Nat) :=
  match a with
  | PyReadArg.int n => Except.ok (stdin.take n, stdin.drop n)
  | PyReadArg.tuple _ => Except.error PyErr.typeError

/-- Embeds `read_message` from `native-host/opencode_bridge.py`, faithfully
keeping the source's omission of `[0]` after `struct.unpack`:

```
def read_message():
    raw_length = sys.stdin.buffer.read(4)
    if len(raw_length) == 0: return None
    length = struct.unpack('=I', raw_length)
    message = sys.stdin.buffer.read(length).decode('utf-8')
    return json.loads(message)
```

`loads` abstracts `json.loads` composed with UTF-8 decoding (an external
library); `α` is the type of parsed JSON documents. The result pairs the
document (`none` embeds Python's `None` for end of stream) with the unread
remainder of the stream; uncaught exceptions are `Except.error`. -/
def read_message {α : Type} (loads : List Nat → Except PyErr α)
    (stdin : List Nat) : Except PyErr (Option α × List Nat) :=
  match bufferRead stdin (PyReadArg.int 4) with
  | Except.error e => Except.error e
  | Except.ok (raw_length, rest) =>
    if raw_length.length = 0 then Except.ok (none, rest)
    else
      match structUnpackI raw_length with
      | Except.error e => Except.error e
      | Except.ok length =>
        match bufferRead rest (PyReadArg.tuple length) with
        | Except.error e => Except.error e
        | Except.ok (message, rest2) =>
          match loads message with
          | Except.error e => Except.error e
          | Except.ok doc => Except.ok (some doc, rest2)

/-- Embeds `send_message` from `native-host/opencode_bridge.py`:

```
def send_message(msg):
    encoded = json.dumps(msg).encode('utf-8')
    sys.stdout.buffer.write(struct.pack('=I', len(encoded)))
    sys.stdout.buffer.write(encoded)
    sys.stdout.buffer.flush()
```

The bytes written to stdout are the 4-byte length prefix followed immediately by
the encoded body, no newline or padding. `dumps` abstracts
`json.dumps(...).encode('utf-8')`. -/
def send_message {α : Type} (dumps : α → List Nat) (msg : α) : List Nat :=
  let encoded := dumps msg
  structPackI encoded.length ++ encoded

/-- How one run of the relay script's `while True` loop ends: a clean `break`
(end of stream or a falsy parsed document), an uncaught Python exception, the
pre-loop `sys.exit(1)` when `opencode` is not installed, or fuel exhaustion
(never reached: the fuel passed by `relay_main` always suffices). -/
inductive RelayExit
  | cleanBreak
  | uncaught (e : PyErr)
  | errorExit
  | fuelOut
deriving Repr, DecidableEq

/-- Embeds the relay loop of `native-host/opencode_bridge.py`:

```
while True:
    msg = read_message()
    if not msg: break
    response = requests.post(..., json={"prompt": msg.get("prompt")})
    send_message({"result": response.json()})
```

`falsy` abstracts Python truthiness of a parsed document (`not msg` also breaks
on `{}`, `[]`, `0`, `""`, `False`); `callServer` abstracts the HTTP POST to the
backing server together with building the response document. The accumulated
`List β` is the sequence of response documents written back via `send_message`.
Recursion is on explicit fuel; `relay_main` supplies enough for the whole
stream. -/
def relay_loop {α β : Type} (loads : List Nat → Except PyErr α)
    (falsy : α → Bool) (callServer : α → β) :
    Nat → List Nat → List β → List β × RelayExit
  | 0, _, out => (out, RelayExit.fuelOut)
  | Nat.succ fuel, stdin, out =>
    match read_message loads stdin with
    | Except.error e => (out, RelayExit.uncaught e)
    | Except.ok (none, _) => (out, RelayExit.cleanBreak)
    | Except.ok (some m, rest) =>
      if falsy m then (out, RelayExit.cleanBreak)
      else relay_loop loads falsy callServer fuel rest (out ++ [callServer m])

/-- Observable outcome of one run of the relay script.
`terminateCalled` records whether the script ever invokes `terminate` or `kill`
on `opencode_process`: no such call exists anywhere in
`native-host/opencode_bridge.py`, so it is `false` on every path. -/
structure RelayResult (β : Type) where
  preStartError : Bool
  childSpawned : Bool
  terminateCalled : Bool
  responses : List β
  exit : RelayExit
deriving Repr, DecidableEq

/-- Embeds the top level of `native-host/opencode_bridge.py`:

```
if not check_opencode():
    send_message({"error": "OpenCode not installed"})
    sys.exit(1)
start_opencode()
while True: ...
```

`installed` abstracts `shutil.which('opencode') is not None`. `start_opencode`
sets the global `opencode_process` via `subprocess.Popen` (recorded as
`childSpawned`). After the loop ends the script simply falls off the end: the
spawned child is never told to terminate. -/
def relay_main {α β : Type} (installed : Bool)
    (loads : List Nat → Except PyErr α) (falsy : α → Bool)
    (callServer : α → β) (stdin : List Nat) : RelayResult β :=
  if installed then
    let r := relay_loop loads falsy callServer (stdin.length + 1) stdin []
    { preStartError := false, childSpawned := true, terminateCalled := false,
      responses := r.1, exit := r.2 }
  else
    { preStartError := true, childSpawned := false, terminateCalled := false,
      responses := [], exit := RelayExit.errorExit }

/-- Concrete instantiation of the abstract JSON parser, used by closed
witness and counterexample evaluations. -/
def loadsUnit : List Nat → Except PyErr Unit := fun _ => Except.ok ()

/-- Concrete instantiation of Python truthiness for witnesses. -/
def falsyUnit : Unit → Bool := fun _ => false

/-- Concrete instantiation of the backing-server call for witnesses. -/
def callUnit : Unit → Nat := fun _ => 0

/-- The constant `MAX_RECONNECT_ATTEMPTS` (background.js line 22). -/
def MAX_RECONNECT_ATTEMPTS : Nat := 3

/-- The constant `RECONNECT_DELAY_MS` (background.js line 23). -/
def RECONNECT_DELAY_MS : Nat := 1000

/-- The empty JS string, used for the defaulted context fields. -/
def emptyStr : String := ""

/-- The `message.type` tag of a streamed event frame. -/
def tStreamEvent : String := "stream_event"

/-- The `message.type` tag of a stream-completion frame. -/
def tStreamComplete : String := "stream_complete"

/-- Value stored in `pendingRequests` at submission time (background.js line
249): `{ tabId: sender.tab?.id, frameId: sender.frameId }`, with `none`
embedding JS `undefined`. -/
structure PendingEntry where
  tabId : Option Nat
  frameId : Option Nat
deriving Repr, DecidableEq

/-- JS `Map.get`: the value stored under `k`, if any. -/
def mapGet (k : Nat) (m : List (Nat × PendingEntry)) : Option PendingEntry :=
  (m.find? (fun p => p.1 = k)).map (fun p => p.2)

/-- JS `Map.has`. -/
def mapHas (k : Nat) (m : List (Nat × PendingEntry)) : Bool :=
  m.any (fun p => p.1 = k)

/-- JS `Map.set`: replaces in place when the key is present, else appends. -/
def mapSet (k : Nat) (v : PendingEntry) (m : List (Nat × PendingEntry)) :
    List (Nat × PendingEntry) :=
  if mapHas k m then m.map (fun p => if p.1 = k then (k, v) else p)
  else m ++ [(k, v)]

/-- JS `Map.delete` (restricted to its effect on the contents). -/
def mapDelete (k : Nat) (m : List (Nat × PendingEntry)) :
    List (Nat × PendingEntry) :=
  m.filter (fun p => p.1 ≠ k)

/-- One browser tab as returned by `browser.tabs.query`; `none` embeds an
`undefined` field. -/
structure Tab where
  url : Option String
  title : Option String
  favIconUrl : Option String
  incognito : Bool
deriving Repr, DecidableEq

/-- Result shape of `getTabContext` (background.js lines 203-225): the error
and no-active-tab paths return only `{ url: "", title: "" }` (no favicon or
incognito field), the happy path also carries `faviconUrl` and `incognito`. -/
structure TabContext where
  url : String
  title : String
  faviconUrl : Option String
  incognito : Option Bool
deriving Repr, DecidableEq

/-- Embeds `getTabContext`: queries the active tab of the current window;
returns `{ url: "", title: "" }` if the query fails or matches no tab, and
otherwise the first tab's fields with `|| ""` defaulting. `queryFails` abstracts
the promise rejection handled by the catch block. -/
def getTabContext (queryFails : Bool) (tabs : List Tab) : TabContext :=
  if queryFails then
    { url := emptyStr, title := emptyStr, faviconUrl := none, incognito := none }
  else
    match tabs with
    | [] => { url := emptyStr, title := emptyStr, faviconUrl := none, incognito := none }
    | t :: _ =>
      { url := t.url.getD emptyStr, title := t.title.getD emptyStr,
        faviconUrl := some (t.favIconUrl.getD emptyStr),
        incognito := some t.incognito }

/-- The `context` object of the message forwarded to the native host
(background.js lines 260-264): the spread of the tab context plus `timestamp:
Date.now()` and `userAgent: navigator.userAgent`. -/
structure NativeContext where
  url : String
  title : String
  faviconUrl : Option String
  incognito : Option Bool
  timestamp : Nat
  userAgent : String
deriving Repr, DecidableEq

/-- The message posted to the native host (background.js lines 257-266). -/
structure NativeMessage where
  requestId : Nat
  prompt : String
  context : NativeContext
  stream : Bool
deriving Repr, DecidableEq

/-- Embeds the `nativeMessage` object literal of the send handler. -/
def buildNativeMessage (rid : Nat) (promptText : String) (c : TabContext)
    (now : Nat) (ua : String) : NativeMessage :=
  { requestId := rid, prompt := promptText,
    context := { url := c.url, title := c.title, faviconUrl := c.faviconUrl,
                 incognito := c.incognito, timestamp := now, userAgent := ua },
    stream := true }

/-- Messages the background script emits towards UI surfaces or back to a
runtime-message sender. `opencodeResponse payload` summarises the
`{type: "opencode_response", success, data, error, details, troubleshooting}`
object rebuilt from an inbound native message, with `payload` standing for that
field bundle; `connectionLostNotice` is the terminal failure broadcast of
`handleNativeDisconnect`'s else branch. -/
inductive OutMessage
  | opencodeResponse (payload : Nat)
  | streamingEvent (event : Nat)
  | connectionLostNotice
  | sendAcknowledged (requestId : Nat)
  | sendFailedResponse
  | cancelAcknowledged
  | pong (connected : Bool)
deriving Repr, DecidableEq

/-- Observable actions of the background script. `idAssigned` instruments the
id allocation `const requestId = ++requestIdCounter` (line 246); `tabMessage`
is a `browser.tabs.sendMessage` to a concrete tab id (the primary routing
decision; the swallowed rejection fallback is environmental); `runtimeBroadcast`
is `browser.runtime.sendMessage`; `sendResponse` answers the runtime message
sender; `scheduleReconnect` is the `setTimeout` of the reconnect path;
`connectAttempt` marks each invocation of `connectToNativeHost` and whether
`browser.runtime.connectNative` succeeded. -/
inductive Effect
  | idAssigned (rid : Nat)
  | connectAttempt (ok : Bool)
  | nativePost (m : NativeMessage)
  | tabMessage (tabId : Nat) (m : OutMessage)
  | runtimeBroadcast (m : OutMessage)
  | sendResponse (m : OutMessage)
  | scheduleReconnect (delayMs : Nat)
deriving Repr, DecidableEq

/-- Module-level mutable state of background.js (lines 20-27): `nativePort`
collapsed to whether a port is set, the reconnect counter, how many reconnect
timers are pending, the pending-request map and the request-id counter. -/
structure BgState where
  nativePort : Bool
  reconnectAttempts : Nat
  timersPending : Nat
  pendingRequests : List (Nat × PendingEntry)
  requestIdCounter : Nat
deriving Repr, DecidableEq

/-- An inbound message from the native host as seen by `handleNativeMessage`:
its `type` tag, its `requestId` (`none` embeds `undefined`), the streamed
`event` payload and the response field bundle
(success/data/error/details/troubleshooting), both left opaque. -/
structure InboundMessage where
  msgType : Option String
  requestId : Option Nat
  eventPayload : Nat
  responsePayload : Nat
deriving Repr, DecidableEq

/-- JS truthiness of `message.requestId` (line 93): `undefined` and `0` are
falsy, every other number is truthy. -/
def ridTruthy : Option Nat → Bool
  | some n => n != 0
  | none => false

/-- Embeds `connectToNativeHost` (background.js lines 33-59). `ok` abstracts
whether `browser.runtime.connectNative` succeeds or throws. On success the port
is stored, the listeners attached and `reconnectAttempts` reset to 0; on a
throw the catch block logs and returns false, leaving the state as it was (the
assignment to `nativePort` never completed). Returns the new state, the boolean
result, and the instrumented attempt effect. -/
def connectToNativeHost (ok : Bool) (s : BgState) : BgState × Bool × List Effect :=
  if ok then
    ({ s with nativePort := true, reconnectAttempts := 0 }, true,
      [Effect.connectAttempt true])
  else
    (s, false, [Effect.connectAttempt false])

/-- Embeds the `nativePort.postMessage` try/catch inside `sendToNativeHost`
(background.js lines 189-196): on success the message is posted and `true`
returned; on a throw the port is cleared and `false` returned. `postOk`
abstracts whether `postMessage` throws. -/
def postMessageStep (m : NativeMessage) (postOk : Bool) (s : BgState) :
    BgState × Bool × List Effect :=
  if postOk then (s, true, [Effect.nativePost m])
  else ({ s with nativePort := false }, false, [])

/-- Embeds `sendToNativeHost` (background.js lines 181-197): when no port is
set, first call `connectToNativeHost`; on connect failure return `false`
without posting; otherwise post the message. -/
def sendToNativeHost (m : NativeMessage) (connectOk postOk : Bool)
    (s : BgState) : BgState × Bool × List Effect :=
  if s.nativePort then postMessageStep m postOk s
  else
    let c := connectToNativeHost connectOk s
    if c.2.1 then
      let p := postMessageStep m postOk c.1
      (p.1, p.2.1, c.2.2 ++ p.2.2)
    else (c.1, false, c.2.2)

/-- Environment inputs of one `send_to_opencode` runtime message (background.js
lines 245-300): the prompt, the sender's tab and frame (`sender.tab?.id`,
`sender.frameId`), the tab-context query outcome, `Date.now()`,
`navigator.userAgent`, and the outcomes of the connect and post attempts that
`sendToNativeHost` may make. -/
structure SendInput where
  promptText : String
  senderTab : Option Nat
  senderFrame : Option Nat
  queryFails : Bool
  tabs : List Tab
  now : Nat
  userAgent : String
  connectOk : Bool
  postOk : Bool
deriving Repr, DecidableEq

/-- Embeds the `send_to_opencode` branch of the runtime message listener
(background.js lines 245-300): allocate `requestId = ++requestIdCounter`,
record the pending entry keyed by it, gather the tab context, build the native
message (streaming always enabled), forward via `sendToNativeHost`; on failure
delete the pending entry and answer the sender with a failure response, on
success answer with `send_acknowledged`. -/
def handleSend (inp : SendInput) (s : BgState) : BgState × List Effect :=
  let rid := s.requestIdCounter + 1
  let s1 : BgState :=
    { s with requestIdCounter := rid,
             pendingRequests :=
               mapSet rid { tabId := inp.senderTab, frameId := inp.senderFrame }
                 s.pendingRequests }
  let ctx := getTabContext inp.queryFails inp.tabs
  let m := buildNativeMessage rid inp.promptText ctx inp.now inp.userAgent
  let r := sendToNativeHost m inp.connectOk inp.postOk s1
  if r.2.1 then
    (r.1, Effect.idAssigned rid :: r.2.2 ++
      [Effect.sendResponse (OutMessage.sendAcknowledged rid)])
  else
    ({ r.1 with pendingRequests := mapDelete rid r.1.pendingRequests },
      Effect.idAssigned rid :: r.2.2 ++
        [Effect.sendResponse OutMessage.sendFailedResponse])

/-- Embeds `handleNativeMessage` (background.js lines 65-132): `stream_event`
frames are forwarded to the recorded tab only when the request id is known
(`tabs.sendMessage(undefined, ...)` rejects and the rejection is swallowed, so
an entry without a tab id delivers nothing); `stream_complete` frames delete the
pending entry; a message with a truthy known `requestId` is routed to the
recorded tab (or broadcast when no tab id was recorded) and its entry deleted;
everything else is re-broadcast as a legacy `opencode_response`. -/
def handleNativeMessage (m : InboundMessage) (s : BgState) :
    BgState × List Effect :=
  if m.msgType = some tStreamEvent then
    match m.requestId with
    | some rid =>
      match mapGet rid s.pendingRequests with
      | some e =>
        match e.tabId with
        | some t => (s, [Effect.tabMessage t (OutMessage.streamingEvent m.eventPayload)])
        | none => (s, [])
      | none => (s, [])
    | none => (s, [])
  else if m.msgType = some tStreamComplete then
    match m.requestId with
    | some rid => ({ s with pendingRequests := mapDelete rid s.pendingRequests }, [])
    | none => (s, [])
  else
    match m.requestId with
    | some rid =>
      if rid ≠ 0 ∧ mapHas rid s.pendingRequests then
        match mapGet rid s.pendingRequests with
        | some e =>
          let s1 : BgState :=
            { s with pendingRequests := mapDelete rid s.pendingRequests }
          match e.tabId with
          | some t => (s1, [Effect.tabMessage t (OutMessage.opencodeResponse m.responsePayload)])
          | none => (s1, [Effect.runtimeBroadcast (OutMessage.opencodeResponse m.responsePayload)])
        | none => (s, [])
      else (s, [Effect.runtimeBroadcast (OutMessage.opencodeResponse m.responsePayload)])
    | none => (s, [Effect.runtimeBroadcast (OutMessage.opencodeResponse m.responsePayload)])

/-- Embeds `handleNativeDisconnect` (background.js lines 137-174): clear the
port; below `MAX_RECONNECT_ATTEMPTS` increment the counter and schedule a
reconnect after `RECONNECT_DELAY_MS`; otherwise broadcast the terminal
connection-lost notice. -/
def handleNativeDisconnect (s : BgState) : BgState × List Effect :=
  let s0 : BgState := { s with nativePort := false }
  if s0.reconnectAttempts < MAX_RECONNECT_ATTEMPTS then
    ({ s0 with reconnectAttempts := s0.reconnectAttempts + 1,
               timersPending := s0.timersPending + 1 },
      [Effect.scheduleReconnect RECONNECT_DELAY_MS])
  else
    (s0, [Effect.runtimeBroadcast OutMessage.connectionLostNotice])

/-- Embeds the `setTimeout` callback of the reconnect path (background.js lines
152-156): when the timer fires, reconnect only if no port has been established
in the meantime. -/
def handleTimerFire (connectOk : Bool) (s : BgState) : BgState × List Effect :=
  let s0 : BgState := { s with timersPending := s.timersPending - 1 }
  if s0.nativePort then (s0, [])
  else
    let c := connectToNativeHost connectOk s0
    (c.1, c.2.2)

/-- Embeds the `cancel_request` branch of the runtime message listener
(background.js lines 329-337): the request is only acknowledged — the comment
reads "For future: implement request cancellation" — and no state changes. -/
def handleCancel (s : BgState) : BgState × List Effect :=
  (s, [Effect.sendResponse OutMessage.cancelAcknowledged])

/-- Embeds the `ping` branch of the runtime message listener (background.js
lines 236-242). -/
def handlePing (s : BgState) : BgState × List Effect :=
  (s, [Effect.sendResponse (OutMessage.pong s.nativePort)])

/-- Events driving the background script: a message from the native host, a
port disconnect, a reconnect timer firing (with the outcome of the connect
attempt it may make), and the runtime messages from UI surfaces. The
`stream_event` / `stream_complete` branches of the runtime listener (lines
303-327) perform the same transitions as the corresponding `nativeMsg` cases. -/
inductive Event
  | nativeMsg (m : InboundMessage)
  | disconnect
  | timerFire (connectOk : Bool)
  | sendRequest (inp : SendInput)
  | cancelRequest
  | ping
deriving Repr, DecidableEq

/-- One event step of the background script. -/
def step : Event → BgState → BgState × List Effect
  | Event.nativeMsg m, s => handleNativeMessage m s
  | Event.disconnect, s => handleNativeDisconnect s
  | Event.timerFire ok, s => handleTimerFire ok s
  | Event.sendRequest inp, s => handleSend inp s
  | Event.cancelRequest, s => handleCancel s
  | Event.ping, s => handlePing s

/-- Runs a sequence of events, concatenating the emitted effects. -/
def run (s : BgState) : List Event → BgState × List Effect
  | [] => (s, [])
  | e :: es =>
    let r1 := step e s
    let r2 := run r1.1 es
    (r2.1, r1.2 ++ r2.2)

/-- Which events the environment can actually deliver in a state: a port
disconnect needs a live port, a reconnect timer can only fire while one is
pending. -/
def wfEventB (s : BgState) : Event → Bool
  | Event.disconnect => s.nativePort
  | Event.timerFire _ => s.timersPending != 0
  | _ => true

/-- A deliverable event trace from a given state. -/
def wfTraceB (s : BgState) : List Event → Bool
  | [] => true
  | e :: es => wfEventB s e && wfTraceB (step e s).1 es

/-- Request ids allocated along a list of effects. -/
def assignedIds (l : List Effect) : List Nat :=
  l.filterMap fun e =>
    match e with
    | Effect.idAssigned r => some r
    | _ => none

/-- Whether an effect is the terminal connection-lost broadcast. -/
def isConnLost : Effect → Bool
  | Effect.runtimeBroadcast OutMessage.connectionLostNotice => true
  | _ => false

/-- Whether an effect is a connect attempt. -/
def isConnectAttempt : Effect → Bool
  | Effect.connectAttempt _ => true
  | _ => false

/-- The reconnect counter can never exceed 1, and is 0 whenever a port is live:
a live port only arises from a successful `connectToNativeHost`, which resets
the counter, and only a disconnect event (requiring a live port) increments it. -/
def ReconnectInv (s : BgState) : Prop :=
  s.reconnectAttempts ≤ 1 ∧ (s.nativePort = true → s.reconnectAttempts = 0)

/-- A plain (non-streaming) response frame from the native host carrying a
request id and an opaque response field bundle. -/
def respMsg (rid payload : Nat) : InboundMessage :=
  { msgType := none, requestId := some rid, eventPayload := 0,
    responsePayload := payload }

/-- A `stream_event` frame for a request id with an opaque event payload. -/
def streamEventMsg (rid ev : Nat) : InboundMessage :=
  { msgType := some tStreamEvent, requestId := some rid, eventPayload := ev,
    responsePayload := 0 }

/-- A `stream_complete` frame for a request id. -/
def streamCompleteMsg (rid : Nat) : InboundMessage :=
  { msgType := some tStreamComplete, requestId := some rid, eventPayload := 0,
    responsePayload := 0 }

/-- A pending entry recording tab 5 as destination, for concrete runs. -/
def tabEntry5 : PendingEntry := { tabId := some 5, frameId := none }

/-- A connected quiescent state, for concrete runs. -/
def connState : BgState :=
  { nativePort := true, reconnectAttempts := 0, timersPending := 0,
    pendingRequests := [], requestIdCounter := 0 }

/-- A disconnected quiescent state, for concrete runs. -/
def discState : BgState :=
  { nativePort := false, reconnectAttempts := 0, timersPending := 0,
    pendingRequests := [], requestIdCounter := 0 }

/-- A connected state with one pending request (id 2, destination tab 5). -/
def stateW : BgState :=
  { nativePort := true, reconnectAttempts := 0, timersPending := 0,
    pendingRequests := [(2, tabEntry5)], requestIdCounter := 2 }

/-- A connected state with one pending request (id 1, destination tab 5). -/
def pendingState : BgState :=
  { nativePort := true, reconnectAttempts := 0, timersPending := 0,
    pendingRequests := [(1, tabEntry5)], requestIdCounter := 1 }

/-- A send arriving while disconnected whose connect attempt fails. -/
def sendFailInput : SendInput :=
  { promptText := emptyStr, senderTab := none, senderFrame := none,
    queryFails := false, tabs := [], now := 0, userAgent := emptyStr,
    connectOk := false, postOk := true }

/-- A concrete user-agent string for witness runs. -/
def uaW : String := "test-agent"

/-- A send arriving from tab 5 while connected, with no active tab in the
query result, that posts successfully. -/
def sendOkInput : SendInput :=
  { promptText := emptyStr, senderTab := some 5, senderFrame := none,
    queryFails := false, tabs := [], now := 1111, userAgent := uaW,
    connectOk := true, postOk := true }

/-- The message the witness send run posts to the native host. -/
def msgW : NativeMessage :=
  buildNativeMessage 1 emptyStr (getTabContext false []) 1111 uaW

/-- Helper: on any nonempty stream, `read_message` raises: `struct.error` when
fewer than 4 bytes are available, and otherwise `TypeError` (the 1-tuple
returned by `struct.unpack` is passed to `buffer.read`). In particular it never
returns a parsed document. -/
theorem read_message_nonempty_error {α : Type}
    (loads : List Nat → Except PyErr α) (stdin : List Nat) (h : stdin ≠ []) :
    read_message loads stdin = Except.error PyErr.structError ∨
      read_message loads stdin = Except.error PyErr.typeError := by
  match stdin with
  | [] => exact absurd rfl h
  | [a] => left; rfl
  | [a, b] => left; rfl
  | [a, b, c] => left; rfl
  | a :: b :: c :: d :: rest =>
    right
    simp [read_message, bufferRead, structUnpackI, List.take, List.drop]

/-- Claim C1. The round-trip law fails in the code: for every document, running
`send_message` and then `read_message` on the produced byte stream raises
`TypeError`, because `read_message` passes the 1-tuple returned by
`struct.unpack('=I', raw_length)` (the `[0]` subscript is missing) directly to
`sys.stdin.buffer.read`. The framing itself (4-byte little-endian length prefix,
no trailing newline) is produced correctly by `send_message`; the decode side
crashes on every frame, for every JSON library instantiation. -/
theorem C1_roundtrip_raises_typeError {α β : Type}
    (dumps : α → List Nat) (loads : List Nat → Except PyErr β) (msg : α) :
    read_message loads (send_message dumps msg) = Except.error PyErr.typeError := by
  simp [send_message, read_message, bufferRead, structPackI, structUnpackI,
    List.take, List.drop]

/-- Claim C7. `read_message` returns the end-of-stream result (`None`) exactly
when the stream closes with zero bytes read (the empty stream); a stream closed
after a partial 4-byte length prefix raises `struct.error`; a stream closed
after a complete prefix but a partial body raises an error as well (with the
source's tuple slip it is `TypeError`, raised before the body is even read); no
truncated stream ever yields a partial or default document. -/
theorem C7_decode_eof_and_truncation {α : Type}
    (loads : List Nat → Except PyErr α) (stdin : List Nat) :
    (read_message loads ([] : List Nat) = Except.ok (none, ([] : List Nat)))
    ∧ (stdin ≠ [] → ∀ r, read_message loads stdin ≠ Except.ok (none, r))
    ∧ (0 < stdin.length → stdin.length < 4 →
        read_message loads stdin = Except.error PyErr.structError)
    ∧ (∀ n body, body.length < n →
        read_message loads (structPackI n ++ body) = Except.error PyErr.typeError) := by
  refine ⟨rfl, ?_, ?_, ?_⟩
  · intro h r hok
    rcases read_message_nonempty_error loads stdin h with he | he <;>
      rw [he] at hok <;> exact Except.noConfusion hok
  · intro h1 h4
    match stdin with
    | [] => simp at h1
    | [a] => rfl
    | [a, b] => rfl
    | [a, b, c] => rfl
    | a :: b :: c :: d :: rest =>
      exfalso
      simp [List.length_cons] at h4
      omega
  · intro n body _
    simp [read_message, bufferRead, structPackI, structUnpackI, List.take, List.drop]

/-- Witness for C7: concrete evaluations of the three conditional conjuncts, at
a 2-byte stream (partial prefix), a complete prefix with a 1-byte body declared
as 5 bytes (partial body), and a 1-byte nonempty stream. -/
theorem C7_decode_eof_and_truncation_witness :
    (read_message loadsUnit ([1, 2] : List Nat) = Except.error PyErr.structError)
    ∧ (read_message loadsUnit (structPackI 5 ++ [9]) = Except.error PyErr.typeError)
    ∧ (read_message loadsUnit ([7] : List Nat) ≠
        Except.ok (none, ([] : List Nat))) :=
  ⟨(C7_decode_eof_and_truncation loadsUnit [1, 2]).2.2.1 (by decide) (by decide),
   (C7_decode_eof_and_truncation loadsUnit []).2.2.2 5 [9] (by decide),
   (C7_decode_eof_and_truncation loadsUnit [7]).2.1 (by decide) []⟩

/-- Counterexample for C8: a concrete run of the relay with `opencode` installed
and an immediately closed stdin. The loop terminates cleanly on end of stream,
the backing server child was spawned by this relay instance, and yet no
terminate request is ever issued to it — the child is left running, contrary to
the claim. -/
theorem C8_counterexample :
    (relay_main true loadsUnit falsyUnit callUnit []).exit = RelayExit.cleanBreak
    ∧ (relay_main true loadsUnit falsyUnit callUnit []).childSpawned = true
    ∧ (relay_main true loadsUnit falsyUnit callUnit []).terminateCalled = false :=
  ⟨rfl, rfl, rfl⟩

/-- Claim C8, amended. In every run of the relay in which the backing server was
spawned (i.e. `opencode` is installed so the loop is reached), the script never
asks the spawned child to terminate — the child outlives the loop; on an empty
stdin the loop does terminate cleanly at end of stream. -/
theorem C8_relay_leaves_child_running {α β : Type}
    (loads : List Nat → Except PyErr α) (falsy : α → Bool)
    (callServer : α → β) (stdin : List Nat) :
    (relay_main true loads falsy callServer stdin).childSpawned = true
    ∧ (relay_main true loads falsy callServer stdin).terminateCalled = false
    ∧ (relay_main true loads falsy callServer ([] : List Nat)).exit =
        RelayExit.cleanBreak :=
  ⟨rfl, rfl, rfl⟩

/-- Helper: unfolding `mapGet` over a head entry. -/
theorem mapGet_cons (k : Nat) (p : Nat × PendingEntry)
    (rest : List (Nat × PendingEntry)) :
    mapGet k (p :: rest) = if p.1 = k then some p.2 else mapGet k rest := by
  unfold mapGet
  by_cases hk : p.1 = k
  · rw [List.find?_cons_of_pos _ (by simpa using hk), if_pos hk]
    rfl
  · rw [List.find?_cons_of_neg _ (by simpa using hk), if_neg hk]

/-- Helper: unfolding `mapDelete` over a head entry. -/
theorem mapDelete_cons (k : Nat) (p : Nat × PendingEntry)
    (rest : List (Nat × PendingEntry)) :
    mapDelete k (p :: rest) =
      if p.1 = k then mapDelete k rest else p :: mapDelete k rest := by
  unfold mapDelete
  by_cases hk : p.1 = k
  · rw [List.filter_cons_of_neg (by simpa using hk), if_pos hk]
  · rw [List.filter_cons_of_pos (by simpa using hk), if_neg hk]

/-- Helper: unfolding `mapHas` over a head entry. -/
theorem mapHas_cons (k : Nat) (p : Nat × PendingEntry)
    (rest : List (Nat × PendingEntry)) :
    mapHas k (p :: rest) = (decide (p.1 = k) || mapHas k rest) := by
  simp [mapHas, List.any_cons]

/-- Helper: deleting a key removes it. -/
theorem mapGet_delete_self (k : Nat) (m : List (Nat × PendingEntry)) :
    mapGet k (mapDelete k m) = none := by
  induction m with
  | nil => rfl
  | cons p rest ih =>
    rw [mapDelete_cons]
    by_cases hk : p.1 = k
    · rw [if_pos hk]
      exact ih
    · rw [if_neg hk, mapGet_cons, if_neg hk]
      exact ih

/-- Helper: deleting one key leaves every other key untouched. -/
theorem mapGet_delete_ne (k k2 : Nat) (m : List (Nat × PendingEntry))
    (h : k ≠ k2) : mapGet k (mapDelete k2 m) = mapGet k m := by
  induction m with
  | nil => rfl
  | cons p rest ih =>
    rw [mapDelete_cons]
    by_cases h2 : p.1 = k2
    · have hpk : ¬ p.1 = k := fun hk => h (hk ▸ h2)
      rw [if_pos h2, mapGet_cons, if_neg hpk]
      exact ih
    · rw [if_neg h2, mapGet_cons, mapGet_cons]
      by_cases hk : p.1 = k
      · rw [if_pos hk, if_pos hk]
      · rw [if_neg hk, if_neg hk]
        exact ih

/-- Helper: a key with a stored value is reported present. -/
theorem mapHas_of_get (k : Nat) (m : List (Nat × PendingEntry))
    (e : PendingEntry) (h : mapGet k m = some e) : mapHas k m = true := by
  induction m with
  | nil => simp [mapGet] at h
  | cons p rest ih =>
    rw [mapGet_cons] at h
    rw [mapHas_cons]
    by_cases hk : p.1 = k
    · simp [hk]
    · rw [if_neg hk] at h
      simp [hk, ih h]

/-- Helper: deleting a freshly added key restores the original map. -/
theorem mapDelete_set_fresh (k : Nat) (v : PendingEntry)
    (m : List (Nat × PendingEntry)) (h : mapHas k m = false) :
    mapDelete k (mapSet k v m) = m := by
  rw [show mapSet k v m = m ++ [(k, v)] from by simp [mapSet, h]]
  revert h
  induction m with
  | nil =>
    intro _
    simp [mapDelete, List.filter_cons]
  | cons p rest ih =>
    intro h
    rw [mapHas_cons] at h
    simp only [Bool.or_eq_false_iff, decide_eq_false_iff_not] at h
    rw [List.cons_append, mapDelete_cons, if_neg h.1, ih h.2]

/-- Helper: `sendToNativeHost` never touches the request counter or the pending
map, allocates no id, emits no terminal notice, and the only message it can
post is the one it was given. -/
theorem sendToNativeHost_frame (m : NativeMessage) (cOk pOk : Bool) (s : BgState) :
    (sendToNativeHost m cOk pOk s).1.requestIdCounter = s.requestIdCounter
    ∧ (sendToNativeHost m cOk pOk s).1.pendingRequests = s.pendingRequests
    ∧ assignedIds (sendToNativeHost m cOk pOk s).2.2 = []
    ∧ (sendToNativeHost m cOk pOk s).2.2.countP isConnLost = 0
    ∧ (∀ m2, Effect.nativePost m2 ∈ (sendToNativeHost m cOk pOk s).2.2 → m2 = m) := by
  unfold sendToNativeHost connectToNativeHost postMessageStep
  cases hp : s.nativePort <;> cases cOk <;> cases pOk <;>
    simp [assignedIds, isConnLost, List.filterMap_cons, List.countP_cons]

/-- Helper: `sendToNativeHost` preserves the reconnect invariant (its connect
resets the counter on success; a post failure only clears the port). -/
theorem sendToNativeHost_inv (m : NativeMessage) (cOk pOk : Bool) (s : BgState)
    (h1 : s.reconnectAttempts ≤ 1)
    (h2 : s.nativePort = true → s.reconnectAttempts = 0) :
    (sendToNativeHost m cOk pOk s).1.reconnectAttempts ≤ 1
    ∧ ((sendToNativeHost m cOk pOk s).1.nativePort = true →
        (sendToNativeHost m cOk pOk s).1.reconnectAttempts = 0) := by
  unfold sendToNativeHost connectToNativeHost postMessageStep
  cases hp : s.nativePort <;> cases cOk <;> cases pOk <;>
    simp_all

/-- Helper: `handleNativeMessage` only ever touches the pending map; it
allocates no id and never emits the terminal connection-lost notice. -/
theorem handleNativeMessage_frame (m : InboundMessage) (s : BgState) :
    (handleNativeMessage m s).1.requestIdCounter = s.requestIdCounter
    ∧ (handleNativeMessage m s).1.nativePort = s.nativePort
    ∧ (handleNativeMessage m s).1.reconnectAttempts = s.reconnectAttempts
    ∧ (handleNativeMessage m s).1.timersPending = s.timersPending
    ∧ assignedIds (handleNativeMessage m s).2 = []
    ∧ (handleNativeMessage m s).2.countP isConnLost = 0 := by
  unfold handleNativeMessage
  repeat' split
  all_goals
    simp [assignedIds, isConnLost, List.filterMap_cons, List.countP_cons]

/-- Helper: `handleSend` allocates exactly the next counter value as id, ends
with the counter advanced by one, and never emits the terminal notice. -/
theorem handleSend_frame (inp : SendInput) (s : BgState) :
    assignedIds (handleSend inp s).2 = [s.requestIdCounter + 1]
    ∧ (handleSend inp s).1.requestIdCounter = s.requestIdCounter + 1
    ∧ (handleSend inp s).2.countP isConnLost = 0 := by
  obtain ⟨hc, hpend, hass, hlost, hpost⟩ :=
    sendToNativeHost_frame
      (buildNativeMessage (s.requestIdCounter + 1) inp.promptText
        (getTabContext inp.queryFails inp.tabs) inp.now inp.userAgent)
      inp.connectOk inp.postOk
      { s with requestIdCounter := s.requestIdCounter + 1,
               pendingRequests :=
                 mapSet (s.requestIdCounter + 1)
                   { tabId := inp.senderTab, frameId := inp.senderFrame }
                   s.pendingRequests }
  simp only [handleSend]
  split
  all_goals
    simp_all [assignedIds, isConnLost, List.filterMap_cons, List.filterMap_append,
      List.countP_cons, List.countP_append]

/-- Helper: `step` on a native message. -/
theorem step_nativeMsg (m : InboundMessage) (s : BgState) :
    step (Event.nativeMsg m) s = handleNativeMessage m s := rfl

/-- Helper: `step` on a disconnect. -/
theorem step_disconnect (s : BgState) :
    step Event.disconnect s = handleNativeDisconnect s := rfl

/-- Helper: `step` on a timer firing. -/
theorem step_timerFire (ok : Bool) (s : BgState) :
    step (Event.timerFire ok) s = handleTimerFire ok s := rfl

/-- Helper: `step` on a send request. -/
theorem step_sendRequest (inp : SendInput) (s : BgState) :
    step (Event.sendRequest inp) s = handleSend inp s := rfl

/-- Helper: `step` on a cancel request. -/
theorem step_cancelRequest (s : BgState) :
    step Event.cancelRequest s = handleCancel s := rfl

/-- Helper: `step` on a ping. -/
theorem step_ping (s : BgState) :
    step Event.ping s = handlePing s := rfl

/-- Helper: each step either allocates no id and keeps the counter, or (for a
send) allocates exactly the incremented counter value. -/
theorem step_assigned (e : Event) (s : BgState) :
    (assignedIds (step e s).2 = []
      ∧ (step e s).1.requestIdCounter = s.requestIdCounter)
    ∨ (assignedIds (step e s).2 = [s.requestIdCounter + 1]
      ∧ (step e s).1.requestIdCounter = s.requestIdCounter + 1) := by
  cases e with
  | nativeMsg m =>
    left
    have h := handleNativeMessage_frame m s
    rw [step_nativeMsg]
    exact ⟨h.2.2.2.2.1, h.1⟩
  | disconnect =>
    left
    rw [step_disconnect]
    simp only [handleNativeDisconnect]
    split <;> simp [assignedIds]
  | timerFire ok =>
    left
    rw [step_timerFire]
    simp only [handleTimerFire, connectToNativeHost]
    split
    · simp [assignedIds]
    · split <;> simp [assignedIds]
  | sendRequest inp =>
    right
    have h := handleSend_frame inp s
    rw [step_sendRequest]
    exact ⟨h.1, h.2.1⟩
  | cancelRequest =>
    left
    rw [step_cancelRequest]
    simp [handleCancel, assignedIds]
  | ping =>
    left
    rw [step_ping]
    simp [handlePing, assignedIds]

/-- Helper: every deliverable step preserves `ReconnectInv` and never emits the
terminal connection-lost notice (that branch needs
`reconnectAttempts ≥ MAX_RECONNECT_ATTEMPTS = 3`, impossible under the
invariant). -/
theorem step_inv (e : Event) (s : BgState) (hinv : ReconnectInv s)
    (hwf : wfEventB s e = true) :
    ReconnectInv (step e s).1 ∧ (step e s).2.countP isConnLost = 0 := by
  obtain ⟨h1, h2⟩ := hinv
  cases e with
  | nativeMsg m =>
    have h := handleNativeMessage_frame m s
    rw [step_nativeMsg]
    refine ⟨⟨?_, ?_⟩, h.2.2.2.2.2⟩
    · rw [h.2.2.1]
      exact h1
    · intro hp
      rw [h.2.2.1]
      exact h2 (by rw [← h.2.1]; exact hp)
  | disconnect =>
    have hp : s.nativePort = true := by simpa [wfEventB] using hwf
    have h0 : s.reconnectAttempts = 0 := h2 hp
    rw [step_disconnect]
    simp only [handleNativeDisconnect]
    rw [if_pos (by simp [h0, MAX_RECONNECT_ATTEMPTS])]
    exact ⟨⟨by simp [ReconnectInv, h0], by simp⟩, by simp [isConnLost]⟩
  | timerFire ok =>
    rw [step_timerFire]
    simp only [handleTimerFire, connectToNativeHost]
    split
    · exact ⟨⟨h1, fun hp => h2 (by simpa using hp)⟩, rfl⟩
    · split
      · exact ⟨⟨by simp, by simp⟩, by simp [isConnLost]⟩
      · exact ⟨⟨h1, fun hp => h2 (by simpa using hp)⟩, by simp [isConnLost]⟩
  | sendRequest inp =>
    rw [step_sendRequest]
    constructor
    · have hsi := sendToNativeHost_inv
        (buildNativeMessage (s.requestIdCounter + 1) inp.promptText
          (getTabContext inp.queryFails inp.tabs) inp.now inp.userAgent)
        inp.connectOk inp.postOk
        { s with requestIdCounter := s.requestIdCounter + 1,
                 pendingRequests :=
                   mapSet (s.requestIdCounter + 1)
                     { tabId := inp.senderTab, frameId := inp.senderFrame }
                     s.pendingRequests }
        h1 h2
      simp only [handleSend]
      split
      · exact ⟨hsi.1, hsi.2⟩
      · exact ⟨hsi.1, hsi.2⟩
    · exact (handleSend_frame inp s).2.2
  | cancelRequest =>
    rw [step_cancelRequest]
    exact ⟨⟨h1, h2⟩, by simp [handleCancel, isConnLost]⟩
  | ping =>
    rw [step_ping]
    exact ⟨⟨h1, h2⟩, by simp [handlePing, isConnLost]⟩

/-- Helper: unfolding `run` over a head event. -/
theorem run_cons (s : BgState) (e : Event) (es : List Event) :
    run s (e :: es) =
      ((run (step e s).1 es).1, (step e s).2 ++ (run (step e s).1 es).2) := rfl

/-- Helper: over any event trace, the allocated request ids form a strictly
increasing list, and each lies strictly above the starting counter and at most
at the final counter. -/
theorem run_assigned (s : BgState) (events : List Event) :
    List.Chain' (fun a b => a < b) (assignedIds (run s events).2)
    ∧ s.requestIdCounter ≤ (run s events).1.requestIdCounter
    ∧ (∀ r ∈ assignedIds (run s events).2,
        s.requestIdCounter < r ∧ r ≤ (run s events).1.requestIdCounter) := by
  induction events generalizing s with
  | nil => simp [run, assignedIds]
  | cons e es ih =>
    obtain ⟨hch, hle, hbd⟩ := ih (step e s).1
    have happ : assignedIds ((step e s).2 ++ (run (step e s).1 es).2)
        = assignedIds (step e s).2 ++ assignedIds (run (step e s).1 es).2 := by
      simp [assignedIds, List.filterMap_append]
    rcases step_assigned e s with ⟨ha, hc⟩ | ⟨ha, hc⟩
    · refine ⟨?_, ?_, ?_⟩
      · simpa [run_cons, happ, ha] using hch
      · rw [run_cons]
        exact hc ▸ hle
      · intro r hr
        rw [run_cons] at hr ⊢
        simp only [happ, ha, List.nil_append] at hr
        obtain ⟨hlt, hle2⟩ := hbd r hr
        rw [hc] at hlt
        exact ⟨hlt, hle2⟩
    · refine ⟨?_, ?_, ?_⟩
      · rw [run_cons]
        simp only [happ, ha, List.cons_append, List.nil_append]
        rw [List.chain'_cons']
        refine ⟨?_, hch⟩
        intro y hy
        have hmem : y ∈ assignedIds (run (step e s).1 es).2 :=
          List.mem_of_mem_head? hy
        have := (hbd y hmem).1
        omega
      · calc s.requestIdCounter ≤ (step e s).1.requestIdCounter := by omega
          _ ≤ (run s (e :: es)).1.requestIdCounter := by
              rw [run_cons]
              exact hle
      · intro r hr
        rw [run_cons] at hr ⊢
        simp only [happ, ha, List.cons_append, List.nil_append,
          List.mem_cons] at hr
        rcases hr with hr | hr
        · subst hr
          constructor
          · omega
          · rw [← hc]
            exact hle
        · obtain ⟨hlt, hle2⟩ := hbd r hr
          constructor
          · omega
          · exact hle2
    

/-- Helper: over any deliverable trace, the reconnect invariant is preserved
and the terminal connection-lost notice is never emitted. -/
theorem run_inv (s : BgState) (events : List Event) (hinv : ReconnectInv s)
    (hwf : wfTraceB s events = true) :
    ReconnectInv (run s events).1 ∧ (run s events).2.countP isConnLost = 0 := by
  induction events generalizing s with
  | nil => exact ⟨hinv, rfl⟩
  | cons e es ih =>
    simp only [wfTraceB, Bool.and_eq_true] at hwf
    obtain ⟨hinv1, hlost1⟩ := step_inv e s hinv hwf.1
    obtain ⟨hinv2, hlost2⟩ := ih (step e s).1 hinv1 hwf.2
    refine ⟨hinv2, ?_⟩
    rw [run_cons]
    simp [List.countP_append, hlost1, hlost2]

/-- Claim C2. Over every event trace, the request ids allocated by the send
path form a strictly increasing (hence pairwise distinct, never reused)
sequence; a response frame whose id is pending is routed exactly to the tab
recorded in the pending entry at submission time (and that entry is then
removed); and handling any frame with a different id leaves the entry intact —
so responses arriving in any order are each routed to their recorded
destination. -/
theorem C2_requestIds_and_routing (s0 : BgState) (events : List Event) :
    List.Chain' (fun a b => a < b) (assignedIds (run s0 events).2)
    ∧ List.Pairwise (fun a b => a < b) (assignedIds (run s0 events).2)
    ∧ (∀ s rid e t payload, mapGet rid s.pendingRequests = some e →
        e.tabId = some t → rid ≠ 0 →
        handleNativeMessage (respMsg rid payload) s =
          ({ s with pendingRequests := mapDelete rid s.pendingRequests },
            [Effect.tabMessage t (OutMessage.opencodeResponse payload)]))
    ∧ (∀ m s rid, m.requestId ≠ some rid →
        mapGet rid (handleNativeMessage m s).1.pendingRequests =
          mapGet rid s.pendingRequests) := by
  have hch := (run_assigned s0 events).1
  refine ⟨hch, List.chain'_iff_pairwise.mp hch, ?_, ?_⟩
  · intro s rid e t payload hget htab hrid
    have hhas := mapHas_of_get rid s.pendingRequests e hget
    simp [handleNativeMessage, respMsg, tStreamEvent, tStreamComplete,
      hget, htab, hhas, hrid]
  · intro m s rid hne
    cases hm : m.requestId with
    | none =>
      simp only [handleNativeMessage, hm]
      repeat' split
      all_goals rfl
    | some rid2 =>
      have hne2 : rid ≠ rid2 := by
        intro h
        exact hne (by rw [hm, h])
      simp only [handleNativeMessage, hm]
      repeat' split
      all_goals
        first
        | rfl
        | simp [mapGet_delete_ne rid rid2 _ hne2]

/-- Witness for C2: in a concrete connected state holding pending request 2
for tab 5, a response frame with id 2 is routed to tab 5 and the entry deleted. -/
theorem C2_requestIds_and_routing_witness :
    handleNativeMessage (respMsg 2 7) stateW =
      ({ stateW with pendingRequests := mapDelete 2 stateW.pendingRequests },
        [Effect.tabMessage 5 (OutMessage.opencodeResponse 7)]) :=
  (C2_requestIds_and_routing stateW []).2.2.1 stateW 2 tabEntry5 5 7
    (by decide) (by decide) (by decide)

/-- Counterexample for C3: starting connected, the transport closes and the
scheduled reconnection attempt fails. The run performs exactly one connect
attempt, emits no terminal connection-lost notice, and ends with no port and no
pending timer — quiescent, so no further automatic reconnection can be
delivered. The claim's three consecutive attempts followed by a terminal
notification never happen. -/
theorem C3_counterexample :
    (run connState [Event.disconnect, Event.timerFire false]).2 =
      [Effect.scheduleReconnect RECONNECT_DELAY_MS, Effect.connectAttempt false]
    ∧ (run connState [Event.disconnect, Event.timerFire false]).1 =
      { nativePort := false, reconnectAttempts := 1, timersPending := 0,
        pendingRequests := [], requestIdCounter := 0 }
    ∧ (run connState [Event.disconnect, Event.timerFire false]).2.countP
        isConnLost = 0
    ∧ (run connState [Event.disconnect, Event.timerFire false]).2.countP
        isConnectAttempt = 1
    ∧ wfTraceB connState [Event.disconnect, Event.timerFire false] = true := by
  decide

/-- Claim C3, amended. The terminal branch of `handleNativeDisconnect` is
unreachable: starting from any state satisfying `ReconnectInv` (any reachable
state: a fresh or connected manager), over every deliverable event trace the
reconnect counter never exceeds 1, the terminal connection-lost notice is never
broadcast, and each transport close schedules exactly one reconnection attempt
(after `RECONNECT_DELAY_MS`); a failed attempt raises no further disconnect, so
no more automatic attempts occur until the next disconnect or send. -/
theorem C3_reconnect_never_terminal (s0 : BgState) (events : List Event)
    (hinv : ReconnectInv s0) (hwf : wfTraceB s0 events = true) :
    ReconnectInv (run s0 events).1
    ∧ (run s0 events).2.countP isConnLost = 0
    ∧ (∀ s : BgState, ReconnectInv s → s.nativePort = true →
        (step Event.disconnect s).2 =
          [Effect.scheduleReconnect RECONNECT_DELAY_MS]) := by
  obtain ⟨h1, h2⟩ := run_inv s0 events hinv hwf
  refine ⟨h1, h2, ?_⟩
  intro s hs hp
  rw [step_disconnect]
  simp only [handleNativeDisconnect]
  rw [if_pos (by simp [hs.2 hp, MAX_RECONNECT_ATTEMPTS])]

/-- Witness for C3: the amended theorem applied to the concrete connected state
and the concrete two-event trace of the counterexample scenario. -/
theorem C3_reconnect_never_terminal_witness :
    ReconnectInv (run connState [Event.disconnect, Event.timerFire false]).1
    ∧ (run connState [Event.disconnect, Event.timerFire false]).2.countP
        isConnLost = 0 :=
  ⟨(C3_reconnect_never_terminal connState [Event.disconnect, Event.timerFire false]
      (by constructor <;> decide) (by decide)).1,
   (C3_reconnect_never_terminal connState [Event.disconnect, Event.timerFire false]
      (by constructor <;> decide) (by decide)).2.1⟩

/-- Counterexample for C4: a send in a concrete disconnected state whose
connect fails. The handler answers with the failure response, yet a RequestId
(1) was allocated and the counter advanced from 0 to 1 — not left exactly as it
was, as the claim states. -/
theorem C4_counterexample :
    (handleSend sendFailInput discState).1.requestIdCounter = 1
    ∧ discState.requestIdCounter = 0
    ∧ Effect.idAssigned 1 ∈ (handleSend sendFailInput discState).2
    ∧ Effect.sendResponse OutMessage.sendFailedResponse ∈
        (handleSend sendFailInput discState).2 := by
  decide

/-- Claim C4, amended. A send with no active transport calls connect first; if
the connect fails the handler posts nothing and returns the failure response,
and it deletes the pending entry it had just created — restoring the pending
table — but the RequestId counter was already incremented before the connect
and stays incremented: the id is allocated and discarded (never reused), not
left unallocated. -/
theorem C4_sendfail_restores_table_but_advances_counter
    (s : BgState) (inp : SendInput)
    (hport : s.nativePort = false) (hconn : inp.connectOk = false)
    (hfresh : mapHas (s.requestIdCounter + 1) s.pendingRequests = false) :
    (handleSend inp s).1.pendingRequests = s.pendingRequests
    ∧ (handleSend inp s).1.requestIdCounter = s.requestIdCounter + 1
    ∧ (∀ m, Effect.nativePost m ∉ (handleSend inp s).2)
    ∧ Effect.sendResponse OutMessage.sendFailedResponse ∈ (handleSend inp s).2 := by
  have hdel := mapDelete_set_fresh (s.requestIdCounter + 1)
    { tabId := inp.senderTab, frameId := inp.senderFrame } s.pendingRequests hfresh
  simp only [handleSend, sendToNativeHost, connectToNativeHost, postMessageStep,
    hport, hconn]
  simp [hdel]

/-- Witness for C4: the amended theorem applied to the concrete disconnected
state and failing send of the counterexample scenario. -/
theorem C4_sendfail_witness :
    (handleSend sendFailInput discState).1.pendingRequests =
      discState.pendingRequests
    ∧ (handleSend sendFailInput discState).1.requestIdCounter =
      discState.requestIdCounter + 1 :=
  ⟨(C4_sendfail_restores_table_but_advances_counter discState sendFailInput
      (by decide) (by decide) (by decide)).1,
   (C4_sendfail_restores_table_but_advances_counter discState sendFailInput
      (by decide) (by decide) (by decide)).2.1⟩

/-- Counterexample for C5: a response frame with requestId 99 arriving while
the pending table is empty is not dropped — `handleNativeMessage` broadcasts a
legacy `opencode_response` to the extension runtime (all UI pages), contrary to
the claim that no UI surface receives it. -/
theorem C5_counterexample :
    (handleNativeMessage (respMsg 99 7) discState).2 =
      [Effect.runtimeBroadcast (OutMessage.opencodeResponse 7)]
    ∧ (handleNativeMessage (respMsg 99 7) discState).2 ≠ [] := by
  decide

/-- Claim C5, amended. A non-streaming frame whose requestId is unknown (or
missing, or 0 hence falsy) is not routed to any tab and raises no error, but it
is not dropped either: the legacy compatibility branch broadcasts an
`opencode_response` rebuilt from it to the extension runtime, with delivery
failures swallowed; the state is unchanged. (Only `stream_event` and
`stream_complete` frames with unknown ids are dropped with no delivery at all.) -/
theorem C5_unroutable_is_broadcast (m : InboundMessage) (s : BgState)
    (hse : m.msgType ≠ some tStreamEvent)
    (hsc : m.msgType ≠ some tStreamComplete)
    (hmiss : ∀ rid, m.requestId = some rid →
        rid = 0 ∨ mapHas rid s.pendingRequests = false) :
    handleNativeMessage m s =
      (s, [Effect.runtimeBroadcast (OutMessage.opencodeResponse m.responsePayload)]) := by
  simp only [handleNativeMessage, if_neg hse, if_neg hsc]
  cases hm : m.requestId with
  | none => rfl
  | some rid =>
    rcases hmiss rid hm with h0 | hno
    · simp [h0]
    · simp [hno]

/-- Witness for C5: the amended theorem applied to the concrete unknown-id
response frame of the counterexample scenario. -/
theorem C5_unroutable_is_broadcast_witness :
    handleNativeMessage (respMsg 99 7) discState =
      (discState, [Effect.runtimeBroadcast (OutMessage.opencodeResponse 7)]) :=
  C5_unroutable_is_broadcast (respMsg 99 7) discState (by decide) (by decide)
    (by decide)

/-- Claim C6. Processing a `stream_complete` frame removes the pending entry
for its requestId (emitting nothing); a `stream_event` frame whose requestId is
not pending is ignored — no state change, delivered nowhere; in particular
every `stream_event` for a requestId arriving after its `stream_complete` was
processed is ignored. -/
theorem C6_stream_complete_stops_routing (s : BgState) (rid ev : Nat) :
    (handleNativeMessage (streamCompleteMsg rid) s).1.pendingRequests =
      mapDelete rid s.pendingRequests
    ∧ (handleNativeMessage (streamCompleteMsg rid) s).2 = []
    ∧ (∀ s2 : BgState, mapGet rid s2.pendingRequests = none →
        handleNativeMessage (streamEventMsg rid ev) s2 = (s2, []))
    ∧ handleNativeMessage (streamEventMsg rid ev)
        (handleNativeMessage (streamCompleteMsg rid) s).1 =
      ((handleNativeMessage (streamCompleteMsg rid) s).1, []) := by
  have hev : ∀ s2 : BgState, mapGet rid s2.pendingRequests = none →
      handleNativeMessage (streamEventMsg rid ev) s2 = (s2, []) := by
    intro s2 hget
    simp [handleNativeMessage, streamEventMsg, hget]
  have hcomp : handleNativeMessage (streamCompleteMsg rid) s =
      ({ s with pendingRequests := mapDelete rid s.pendingRequests }, []) := by
    simp [handleNativeMessage, streamCompleteMsg, tStreamEvent, tStreamComplete]
  refine ⟨by rw [hcomp], by rw [hcomp], hev, ?_⟩
  apply hev
  rw [hcomp]
  exact mapGet_delete_self rid s.pendingRequests

/-- Witness for C6: applied to the concrete state holding pending request 1,
request 1 completed and a late stream event for it. -/
theorem C6_stream_complete_stops_routing_witness :
    handleNativeMessage (streamEventMsg 1 4)
        (handleNativeMessage (streamCompleteMsg 1) pendingState).1 =
      ((handleNativeMessage (streamCompleteMsg 1) pendingState).1, []) :=
  (C6_stream_complete_stops_routing pendingState 1 4).2.2.2

/-- Counterexample for C9: in a concrete state holding pending request 1 for
tab 5, a `cancel_request` leaves the state — including the pending entry —
completely unchanged, and a response for requestId 1 arriving afterwards is
still routed to tab 5; the claim says the entry is removed and nothing is
routed afterwards. -/
theorem C9_counterexample :
    (handleCancel pendingState).1 = pendingState
    ∧ mapGet 1 (handleCancel pendingState).1.pendingRequests = some tabEntry5
    ∧ (handleNativeMessage (respMsg 1 9) (handleCancel pendingState).1).2 =
        [Effect.tabMessage 5 (OutMessage.opencodeResponse 9)] := by
  decide

/-- Claim C9, amended. A `cancel_request` notification is accepted and
acknowledged, but it is a no-op on the manager's state: the PendingRequest
entry is NOT removed (the handler's comment defers cancellation to the future),
so responses and stream events for that RequestId arriving afterwards are still
routed, and the already-forwarded backing call is not aborted. -/
theorem C9_cancel_acknowledged_noop (s : BgState) :
    handleCancel s = (s, [Effect.sendResponse OutMessage.cancelAcknowledged]) :=
  rfl

/-- Claim C10. Every message the send path actually posts to the native host
has `stream` hard-coded to `true` (callers cannot request non-streaming mode),
and its context carries the numeric `Date.now()` timestamp and the browser's
`userAgent` string alongside the active tab's url and title, which are empty
strings when the tab query fails or matches no active tab. -/
theorem C10_forwarded_message_shape (inp : SendInput) (s : BgState)
    (m : NativeMessage)
    (hm : Effect.nativePost m ∈ (handleSend inp s).2) :
    m.stream = true
    ∧ m.context.timestamp = inp.now
    ∧ m.context.userAgent = inp.userAgent
    ∧ (inp.queryFails = false → inp.tabs = [] →
        m.context.url = emptyStr ∧ m.context.title = emptyStr)
    ∧ (inp.queryFails = true →
        m.context.url = emptyStr ∧ m.context.title = emptyStr) := by
  have hfr := sendToNativeHost_frame
    (buildNativeMessage (s.requestIdCounter + 1) inp.promptText
      (getTabContext inp.queryFails inp.tabs) inp.now inp.userAgent)
    inp.connectOk inp.postOk
    { s with requestIdCounter := s.requestIdCounter + 1,
             pendingRequests :=
               mapSet (s.requestIdCounter + 1)
                 { tabId := inp.senderTab, frameId := inp.senderFrame }
                 s.pendingRequests }
  simp only [handleSend] at hm
  have hmem : Effect.nativePost m ∈
      (sendToNativeHost
        (buildNativeMessage (s.requestIdCounter + 1) inp.promptText
          (getTabContext inp.queryFails inp.tabs) inp.now inp.userAgent)
        inp.connectOk inp.postOk
        { s with requestIdCounter := s.requestIdCounter + 1,
                 pendingRequests :=
                   mapSet (s.requestIdCounter + 1)
                     { tabId := inp.senderTab, frameId := inp.senderFrame }
                     s.pendingRequests }).2.2 := by
    split at hm <;>
      simpa using hm
  have heq := hfr.2.2.2.2 m hmem
  rw [heq]
  refine ⟨rfl, rfl, rfl, ?_, ?_⟩
  · intro hq ht
    rw [show (buildNativeMessage (s.requestIdCounter + 1) inp.promptText
        (getTabContext inp.queryFails inp.tabs) inp.now
        inp.userAgent).context.url = (getTabContext inp.queryFails inp.tabs).url
      from rfl]
    rw [show (buildNativeMessage (s.requestIdCounter + 1) inp.promptText
        (getTabContext inp.queryFails inp.tabs) inp.now
        inp.userAgent).context.title = (getTabContext inp.queryFails inp.tabs).title
      from rfl]
    rw [hq, ht]
    exact ⟨rfl, rfl⟩
  · intro hq
    rw [show (buildNativeMessage (s.requestIdCounter + 1) inp.promptText
        (getTabContext inp.queryFails inp.tabs) inp.now
        inp.userAgent).context.url = (getTabContext inp.queryFails inp.tabs).url
      from rfl]
    rw [show (buildNativeMessage (s.requestIdCounter + 1) inp.promptText
        (getTabContext inp.queryFails inp.tabs) inp.now
        inp.userAgent).context.title = (getTabContext inp.queryFails inp.tabs).title
      from rfl]
    rw [hq]
    exact ⟨rfl, rfl⟩

/-- Witness for C10: the concrete send run posts `msgW`, whose stream flag,
timestamp, user agent, and defaulted url/title the theorem then computes. -/
theorem C10_forwarded_message_shape_witness :
    msgW.stream = true
    ∧ msgW.context.timestamp = 1111
    ∧ msgW.context.userAgent = uaW
    ∧ msgW.context.url = emptyStr
    ∧ msgW.context.title = emptyStr :=
  have h := C10_forwarded_message_shape sendOkInput connState msgW (by decide)
  ⟨h.1, h.2.1, h.2.2.1, (h.2.2.2.1 rfl rfl).1, (h.2.2.2.1 rfl rfl).2⟩
